import Mathlib

/-!
Shallow embedding of the EventConnectorLib repository
(src/event_connector_lib/utils.py and src/event_connector_lib/client.py).

Python dictionaries holding JSON-like wire data are modelled as association
lists `List (String × Json)` over an inductive `Json` value type.  Fallible
Python operations (subscripting a dict, attribute access on a wrong type)
return `Except PyErr`, mirroring the exceptions the interpreter would raise
(`ValueError`, `KeyError`, `TypeError` / `AttributeError`).
-/

set_option autoImplicit false

namespace EventConnector

/-- JSON-like values carried in event dictionaries (`Dict[Any, Any]` in the
source). -/
inductive Json where
  | null
  | bool (b : Bool)
  | str (s : String)
  | num (n : Int)
  | arr (elems : List Json)
  | obj (fields : List (String × Json))

mutual

/-- Boolean equality on `Json` values (mirrors Python `==` on loaded JSON). -/
def Json.beq : Json → Json → Bool
  | .null, .null => true
  | .bool a, .bool b => a == b
  | .str a, .str b => a == b
  | .num a, .num b => a == b
  | .arr as, .arr bs => Json.beqList as bs
  | .obj as, .obj bs => Json.beqFields as bs
  | _, _ => false

/-- Elementwise `Json.beq` on lists. -/
def Json.beqList : List Json → List Json → Bool
  | [], [] => true
  | a :: as, b :: bs => Json.beq a b && Json.beqList as bs
  | _, _ => false

/-- Elementwise `Json.beq` on key-value field lists. -/
def Json.beqFields : List (String × Json) → List (String × Json) → Bool
  | [], [] => true
  | (k1, v1) :: as, (k2, v2) :: bs => k1 == k2 && Json.beq v1 v2 && Json.beqFields as bs
  | _, _ => false

end

/-- Python exceptions relevant to the translated code. -/
inductive PyErr where
  | valueError (msg : String)
  | keyError (key : String)
  | typeError
  | attributeError

/-- Look a key up in a Python dict modelled as an association list
(`d[k]`-style presence: returns the stored value, `Json.null` included). -/
def dictLookup : List (String × Json) → String → Option Json
  | [], _ => none
  | (k2, v) :: rest, k => if k2 = k then some v else dictLookup rest k

/-- Python `k in d` on a dict. -/
def dictHasKey (d : List (String × Json)) (k : String) : Bool :=
  (dictLookup d k).isSome

/-- Python `d.get(k, None)`: `None` both when the key is absent and when the
stored value is JSON `null` (which `json.loads` turns into `None`). -/
def dictGetPy (d : List (String × Json)) (k : String) : Option Json :=
  match dictLookup d k with
  | some .null => none
  | some v => some v
  | none => none

/-- Python truthiness of a loaded-JSON value. -/
def pyTruthy : Json → Bool
  | .null => false
  | .bool b => b
  | .str s => !s.isEmpty
  | .num n => n != 0
  | .arr xs => !xs.isEmpty
  | .obj fs => !fs.isEmpty

/-- Is `xs` an infix of `ys` (used for Python substring containment)? -/
def charsInfixOf (xs : List Char) : List Char → Bool
  | [] => xs.isEmpty
  | y :: t => List.isPrefixOf xs (y :: t) || charsInfixOf xs t

/-- Python `k in v` where `v` is a loaded-JSON value: key test on dicts,
membership on lists, substring test on strings, `TypeError` otherwise. -/
def pyInOp (k : String) : Json → Except Unit Bool
  | .obj fs => .ok (dictHasKey fs k)
  | .arr xs => .ok (xs.any fun x => match x with | .str s => s == k | _ => false)
  | .str s => .ok (charsInfixOf k.toList s.toList)
  | _ => .error ()

/-- Python subscript `v[k]` on a loaded-JSON value: dict lookup with
`KeyError` on absence, `TypeError` on non-dicts. -/
def pySubscript (v : Json) (k : String) : Except PyErr Json :=
  match v with
  | .obj fs =>
    match dictLookup fs k with
    | some x => .ok x
    | none => .error (.keyError k)
  | _ => .error .typeError

/-- `Event` (utils.py): wraps the raw event dictionary. -/
structure Event where
  data : List (String × Json)

/-- `Event.__init__` (utils.py): validates presence of `event`, `payload`
and `topic` before storing the data, raising `ValueError` otherwise. -/
def Event.mk? (data : List (String × Json)) : Except PyErr Event :=
  match dictLookup data "event" with
  | none => .error (.valueError "Missing required event field in event data")
  | some ev =>
    if dictHasKey data "payload" then
      match pyInOp "topic" ev with
      | .error _ => .error .typeError
      | .ok true => .ok ⟨data⟩
      | .ok false => .error (.valueError "Missing required topic field in event header")
    else .error (.valueError "Missing required payload field in event data")

/-- `Event.header`: `self.__data["event"]`. -/
def Event.header (e : Event) : Except PyErr Json :=
  match dictLookup e.data "event" with
  | some v => .ok v
  | none => .error (.keyError "event")

/-- `Event.payload`: `self.__data["payload"]`. -/
def Event.payload (e : Event) : Except PyErr Json :=
  match dictLookup e.data "payload" with
  | some v => .ok v
  | none => .error (.keyError "payload")

/-- `Event.topic`: `self.header["topic"]`. -/
def Event.topic (e : Event) : Except PyErr Json :=
  match e.header with
  | .ok h => pySubscript h "topic"
  | .error err => .error err

/-- `Event.response_requested`: `self.header["response_requested"]` —
a plain subscript, raising `KeyError` when the field is absent. -/
def Event.response_requested (e : Event) : Except PyErr Json :=
  match e.header with
  | .ok h => pySubscript h "response_requested"
  | .error err => .error err

/-- `Event.response_topic`: `self.header.get("respond_to", None)`. -/
def Event.response_topic (e : Event) : Except PyErr (Option Json) :=
  match e.header with
  | .ok (.obj fs) => .ok (dictGetPy fs "respond_to")
  | .ok _ => .error .attributeError
  | .error err => .error err

/-- `ModuleType` (utils.py). -/
inductive ModuleType where
  | CORE
  | SUPPORT
  | AI

/-- Python `f"{self.module_type}"` on a `ModuleType` member. -/
def moduleTypeStr : ModuleType → String
  | .CORE => "ModuleType.CORE"
  | .SUPPORT => "ModuleType.SUPPORT"
  | .AI => "ModuleType.AI"

/-- Mutable state of a `Client` instance (client.py): the two event queues,
the `__registered_response_callbacks` table (a dict from topic value to a
per-topic response queue), whether `__receiver_func` is set, the
`__receiver_func_queue`, and the broker address set by `connect_broker`. -/
structure ClientState where
  incoming : List Event
  outgoing : List Event
  callbacks : List (Json × List Event)
  receiverRegistered : Bool
  receiverQueue : List Event
  brokerHost : Option String
  brokerPort : Option Nat

/-- A fresh client: all queues empty, no handler, no broker configured. -/
def emptyClientState : ClientState :=
  ⟨[], [], [], false, [], none, none⟩

/-- Python `topic in self.__registered_response_callbacks`. -/
def containsKeyJ (cbs : List (Json × List Event)) (k : Json) : Bool :=
  cbs.any fun p => Json.beq p.1 k

/-- Python `del self.__registered_response_callbacks[topic]`. -/
def removeKeyJ (cbs : List (Json × List Event)) (k : Json) : List (Json × List Event) :=
  cbs.filter fun p => !Json.beq p.1 k

/-- Python `self.__registered_response_callbacks[topic].put(event)`. -/
def pushToKeyJ (cbs : List (Json × List Event)) (k : Json) (e : Event) :
    List (Json × List Event) :=
  cbs.map fun p => if Json.beq p.1 k then (p.1, p.2 ++ [e]) else p

/-- `Client.__await_event` (client.py).  Registers a response queue for
`topic` if none exists, then blocks on `response_queue.get(timeout=30)`.
The cross-thread handoff is abstracted by `arrival` (the time-offset at
which the inbound dispatcher puts a matching response event `resp` into the
queue, `none` when none ever arrives): the `get` succeeds exactly when the
response is put within the hard-coded 30-unit budget.  On success the table
entry is deleted and the callback receives the event (returned as
`some resp`); on timeout the function returns `none` WITHOUT deleting the
entry (the `del` statement is only reached on the success path). -/
def await_event (cbs : List (Json × List Event)) (topic : Json)
    (arrival : Option Nat) (resp : Event) :
    Option Event × List (Json × List Event) :=
  let cbs1 := if containsKeyJ cbs topic then cbs else cbs ++ [(topic, [])]
  match arrival with
  | some a => if a ≤ 30 then (some resp, removeKeyJ cbs1 topic) else (none, cbs1)
  | none => (none, cbs1)

/-- Errors `Client.send_event` can raise: `ResponseCallbackError` from its
own validation, or a propagated Python error from the `Event` accessors. -/
inductive SendErr where
  | responseCallbackError (msg : String)
  | pyError (e : PyErr)

/-- `Client.send_event` (client.py).  The event is FIRST put into the
outgoing queue; only then, when a `response_callback` was supplied
(`has_cb`), are the preconditions validated: a falsy
`event.response_requested` or a falsy `event.response_topic` raises
`ResponseCallbackError` (after the enqueue already happened).  When
validation passes, `__await_event` runs synchronously in the caller's
thread; the `Option Event` result is the response delivered to the
callback (`none` when the await timed out or no callback was given). -/
def send_event (st : ClientState) (e : Event) (has_cb : Bool)
    (arrival : Option Nat) (resp : Event) :
    ClientState × Except SendErr (Option Event) :=
  let st1 := { st with outgoing := st.outgoing ++ [e] }
  if has_cb then
    match e.response_requested with
    | .error err => (st1, .error (.pyError err))
    | .ok v =>
      if pyTruthy v then
        match e.response_topic with
        | .error err => (st1, .error (.pyError err))
        | .ok none =>
          (st1, .error (.responseCallbackError
            "response_callback provided, but the event does not specify a response topic"))
        | .ok (some rt) =>
          if pyTruthy rt then
            let (delivered, cbs2) := await_event st1.callbacks rt arrival resp
            ({ st1 with callbacks := cbs2 }, .ok delivered)
          else
            (st1, .error (.responseCallbackError
              "response_callback provided, but the event does not specify a response topic"))
      else
        (st1, .error (.responseCallbackError
          "response_callback provided, but the event does not request a response"))
  else (st1, .ok none)

/-- Errors `Client.send_event_and_await_response` can raise. -/
inductive AwaitRespErr where
  | sendErr (e : SendErr)
  | awaitEventResponseTimeout

/-- `Client.send_event_and_await_response` (client.py).  Calls `send_event`
with a callback that records the response and sets a flag, then waits on
the flag for up to `timeout` more units.  Because `send_event` runs
`__await_event` synchronously, the flag is already decided when the wait
starts: the response is returned exactly when the internal 30-unit await
delivered it, and otherwise `AwaitEventResponseTimeout` is raised after the
additional `timeout` wait — the `timeout` argument never extends the
response-delivery window. -/
def send_event_and_await_response (st : ClientState) (e : Event)
    (timeout : Nat) (arrival : Option Nat) (resp : Event) :
    ClientState × Except AwaitRespErr Event :=
  let _ := timeout
  match send_event st e true arrival resp with
  | (st1, .error err) => (st1, .error (.sendErr err))
  | (st1, .ok (some r)) => (st1, .ok r)
  | (st1, .ok none) => (st1, .error .awaitEventResponseTimeout)

/-- What `Client.__process_incoming_events` does with one dequeued event. -/
inductive DispatchAction where
  | blocked
  | discarded
  | toWaiter (k : Json)
  | toHandler
  | crashed (err : PyErr)

/-- One iteration of `Client.__process_incoming_events` (client.py): take the
next event from the incoming queue (block when empty); if no receiver
function is registered, discard it with a warning; else if its topic is a
key of `__registered_response_callbacks`, put it into that response queue
and stop; else put it into `__receiver_func_queue` for the handler. -/
def process_incoming_step (st : ClientState) : ClientState × DispatchAction :=
  match st.incoming with
  | [] => (st, .blocked)
  | e :: rest =>
    let st1 := { st with incoming := rest }
    if st.receiverRegistered then
      match e.topic with
      | .error err => (st1, .crashed err)
      | .ok t =>
        if containsKeyJ st.callbacks t then
          ({ st1 with callbacks := pushToKeyJ st.callbacks t e }, .toWaiter t)
        else
          ({ st1 with receiverQueue := st.receiverQueue ++ [e] }, .toHandler)
    else (st1, .discarded)

/-- An entry of the outgoing queue: an ordinary `Event`, or a `BrokerEvent`
(utils.py) carrying its own static `destination`. -/
inductive OutEvent where
  | plain (e : Event)
  | brokerEvt (destination : String) (e : Event)

/-- Destination resolution in `Client.__process_outgoing_events`: a
`BrokerEvent` is sent to its own `destination`; any other event goes to
`http://{broker_host}:{broker_port}/event`, raising `AttributeError` when
`connect_broker` never set the broker address. -/
def resolve_destination (bh : Option String) (bp : Option Nat) :
    OutEvent → Except PyErr String
  | .brokerEvt d _ => .ok d
  | .plain _ =>
    match bh, bp with
    | some h, some p => .ok ("http://" ++ h ++ ":" ++ toString p ++ "/event")
    | _, _ => .error .attributeError

/-- Outcome of one iteration of `Client.__process_outgoing_events`. -/
inductive OutStepResult where
  | blocked
  | sent (dest : String)
  | droppedAfterFailure (dest : String)
  | crashed (err : PyErr)

/-- One iteration of `Client.__process_outgoing_events` (client.py): take the
next event from the outgoing queue (block when empty), resolve its
destination and POST it there.  `transportOk` abstracts the outcome of
`requests.post`: on any transport failure the except-clause logs the error
and the loop simply continues — the event is dropped, never re-enqueued,
and no error reaches the caller that enqueued it. -/
def process_outgoing_step (bh : Option String) (bp : Option Nat)
    (q : List OutEvent) (transportOk : Bool) : OutStepResult × List OutEvent :=
  match q with
  | [] => (.blocked, [])
  | oe :: rest =>
    match resolve_destination bh bp oe with
    | .error err => (.crashed err, rest)
    | .ok dest =>
      if transportOk then (.sent dest, rest) else (.droppedAfterFailure dest, rest)

/-- An HTTP response produced by `_HTTPRequestHandler.do_POST`, or an
uncaught Python exception escaping the handler. -/
inductive HandlerOutcome where
  | responded (status : Nat) (body : String)
  | crashed (err : PyErr)

/-- `_HTTPRequestHandler.do_POST` (client.py).  `parsed` is the result of
`json.loads` on the request body (`none` on `JSONDecodeError`).  Returns
the HTTP outcome together with the incoming queue after the call. -/
def do_POST (path : String) (parsed : Option Json) (incoming : List Event) :
    HandlerOutcome × List Event :=
  if path = "/event" then
    match parsed with
    | none => (.responded 400 "\x7b\"msg\": \"Invalid JSON\"\x7d", incoming)
    | some (.obj fs) =>
      match dictGetPy fs "event", dictGetPy fs "payload" with
      | some ev, some _ =>
        match ev with
        | .obj efs =>
          match dictGetPy efs "topic" with
          | none => (.responded 400 "\x7b\"msg\": \"Missing topic\"\x7d", incoming)
          | some _ =>
            match Event.mk? fs with
            | .ok e => (.responded 200 "\x7b\x7d", incoming ++ [e])
            | .error err => (.crashed err, incoming)
        | _ => (.crashed .attributeError, incoming)
      | _, _ => (.responded 400 "\x7b\"msg\": \"Missing event or payload\"\x7d", incoming)
    | some _ => (.crashed .attributeError, incoming)
  else (.responded 404 "\x7b\"msg\": \"Not Found\"\x7d", incoming)

/-- The literal dict built by `Client._subscribe_topics` (client.py). -/
def topic_subscription_event_data (host : String) (port : Nat)
    (topics : List String) : List (String × Json) :=
  [("event", .obj [("topic", .str "/zkms/register/topic"),
                   ("response_requested", .bool false)]),
   ("payload", .obj [("eventHandler",
                      .str ("http://" ++ host ++ ":" ++ toString port ++ "/event")),
                     ("topics", .arr (topics.map .str))])]

/-- The literal dict built by `Client._unsubscribe_topics` (client.py). -/
def topic_unsubscription_event_data (host : String) (port : Nat)
    (topics : List String) : List (String × Json) :=
  [("event", .obj [("topic", .str "/zkms/deregister/topic"),
                   ("response_requested", .bool false)]),
   ("payload", .obj [("eventHandler",
                      .str ("http://" ++ host ++ ":" ++ toString port ++ "/event")),
                     ("topics", .arr (topics.map .str))])]

/-- The literal dict built by `Client.connect_broker` (client.py);
`uuidStr` stands for the generated `str(uuid.uuid4())`. -/
def registration_event_data (name descr ver : String) (mt : ModuleType)
    (host : String) (port : Nat) (uuidStr : String) : List (String × Json) :=
  [("event", .obj [("topic", .str "/zkms/register/module"),
                   ("respond_to",
                    .str (uuidStr ++ "-ResponseEvent-for-/zkms/register/module")),
                   ("response_requested", .bool false)]),
   ("payload", .obj [("registration",
     .obj [("name", .str name),
           ("description", .str descr),
           ("version", .str ver),
           ("type", .str (moduleTypeStr mt)),
           ("eventHandler",
            .str ("http://" ++ host ++ ":" ++ toString port ++ "/event")),
           ("topics", .arr [.str "*"])])])]

/-- `Client._subscribe_topics` (client.py): builds the subscription event and
hands it to `send_event` with no callback (so it is simply enqueued). -/
def subscribe_topics (st : ClientState) (host : String) (port : Nat)
    (topics : List String) : ClientState × Except SendErr Unit :=
  match Event.mk? (topic_subscription_event_data host port topics) with
  | .ok e =>
    match send_event st e false none e with
    | (st1, .ok _) => (st1, .ok ())
    | (st1, .error err) => (st1, .error err)
  | .error err => (st, .error (.pyError err))

/-- `Client._unsubscribe_topics` (client.py). -/
def unsubscribe_topics (st : ClientState) (host : String) (port : Nat)
    (topics : List String) : ClientState × Except SendErr Unit :=
  match Event.mk? (topic_unsubscription_event_data host port topics) with
  | .ok e =>
    match send_event st e false none e with
    | (st1, .ok _) => (st1, .ok ())
    | (st1, .error err) => (st1, .error err)
  | .error err => (st, .error (.pyError err))

/-- `Client.connect_broker` (client.py): stores the broker address, builds
the registration event and puts it into the outgoing queue. -/
def connect_broker (st : ClientState) (name descr ver : String)
    (mt : ModuleType) (host : String) (port : Nat) (uuidStr : String)
    (bHost : String) (bPort : Nat) : Except PyErr ClientState :=
  match Event.mk? (registration_event_data name descr ver mt host port uuidStr) with
  | .ok e =>
    .ok { st with brokerHost := some bHost, brokerPort := some bPort,
                  outgoing := st.outgoing ++ [e] }
  | .error err => .error err

/-- `Module` (utils.py): descriptor of a module, with the subscribed-topic
list stored as a Python `set`. -/
structure Module where
  name : String
  description : String
  version : String
  type : ModuleType
  event_handler : String
  topics : Finset String

/-- `Module.remove_topic` (utils.py): `self.__topics.remove(topic)` —
raises `KeyError` when the topic is not a member, and in that case the set
is unchanged (the returned `Module` is the receiver itself). -/
def Module.remove_topic (m : Module) (t : String) : Except PyErr Unit × Module :=
  if t ∈ m.topics then (.ok (), { m with topics := m.topics.erase t })
  else (.error (.keyError t), m)

/-- `Module.remove_topics` (utils.py): `self.__topics.difference_update(topics)`
— total, never raises; absent members of `ts` are simply ignored. -/
def Module.remove_topics (m : Module) (ts : List String) : Module :=
  { m with topics := m.topics \ ts.toFinset }

/-- A concrete well-formed event used in witnesses and counterexamples. -/
def sampleEvent : Event :=
  ⟨[("event", .obj [("topic", .str "/t")]), ("payload", .obj [])]⟩

/-- A concrete event with `response_requested = false` in its header. -/
def noRespEvent : Event :=
  ⟨[("event", .obj [("topic", .str "/t"), ("response_requested", .bool false)]),
    ("payload", .obj [])]⟩

/-- A concrete event requesting a response on topic `/r`. -/
def respReqEvent : Event :=
  ⟨[("event", .obj [("topic", .str "/t"), ("respond_to", .str "/r"),
                    ("response_requested", .bool true)]),
    ("payload", .obj [])]⟩

/-- The input dictionary carries a topic: its `event` value is an object
containing the key `topic` (the shape required by the data model). -/
def topicPresent (data : List (String × Json)) : Prop :=
  ∃ fs, dictLookup data "event" = some (.obj fs) ∧ dictHasKey fs "topic" = true

mutual

theorem Json.beq_refl : (j : Json) → Json.beq j j = true
  | .null => rfl
  | .bool b => by simp [Json.beq]
  | .str s => by simp [Json.beq]
  | .num n => by simp [Json.beq]
  | .arr xs => by simpa [Json.beq] using Json.beqList_refl xs
  | .obj fs => by simpa [Json.beq] using Json.beqFields_refl fs

theorem Json.beqList_refl : (l : List Json) → Json.beqList l l = true
  | [] => rfl
  | a :: as => by simp [Json.beqList, Json.beq_refl a, Json.beqList_refl as]

theorem Json.beqFields_refl : (l : List (String × Json)) → Json.beqFields l l = true
  | [] => rfl
  | (k, v) :: as => by simp [Json.beqFields, Json.beq_refl v, Json.beqFields_refl as]

end

theorem containsKeyJ_append_self (cbs : List (Json × List Event)) (k : Json)
    (q : List Event) : containsKeyJ (cbs ++ [(k, q)]) k = true := by
  simp [containsKeyJ, List.any_append, Json.beq_refl]

theorem dictGetPy_some_lookup (d : List (String × Json)) (k : String) (v : Json)
    (h : dictGetPy d k = some v) : dictLookup d k = some v := by
  unfold dictGetPy at h
  rcases hl : dictLookup d k with _ | w
  · rw [hl] at h
    cases h
  · rw [hl] at h
    cases w <;> simp_all

theorem mk?_of_valid (fs efs : List (String × Json)) (tv : Json)
    (hev : dictGetPy fs "event" = some (.obj efs))
    (hpl : ∃ pl, dictGetPy fs "payload" = some pl)
    (htp : dictGetPy efs "topic" = some tv) :
    Event.mk? fs = .ok ⟨fs⟩ := by
  have h1 := dictGetPy_some_lookup _ _ _ hev
  obtain ⟨pl, hpl⟩ := hpl
  have h2 := dictGetPy_some_lookup _ _ _ hpl
  have h3 := dictGetPy_some_lookup _ _ _ htp
  simp [Event.mk?, h1, dictHasKey, h2, pyInOp, h3]

theorem await_event_timeout_keeps_entry (cbs : List (Json × List Event))
    (topic : Json) (arrival : Option Nat) (resp : Event)
    (h : arrival = none ∨ ∃ a, arrival = some a ∧ 30 < a) :
    (await_event cbs topic arrival resp).1 = none ∧
    containsKeyJ (await_event cbs topic arrival resp).2 topic = true := by
  have hkey : containsKeyJ
      (if containsKeyJ cbs topic then cbs else cbs ++ [(topic, [])]) topic = true := by
    by_cases hc : containsKeyJ cbs topic = true
    · simp [hc]
    · simp [hc, containsKeyJ_append_self]
  rcases h with h | ⟨a, ha, hlt⟩
  · subst h
    exact ⟨rfl, hkey⟩
  · subst ha
    have : ¬ a ≤ 30 := by omega
    constructor
    · simp [await_event, this]
    · simpa [await_event, this] using hkey

/-- Claim C1 counterexample: the claim says the event is never enqueued by
the failing call, but `send_event` puts the event into the outgoing queue
BEFORE validating the callback, so the failed call leaves the queue grown
by one. -/
theorem claim_C1_counterexample :
    (send_event emptyClientState noRespEvent true none noRespEvent).2 =
      .error (.responseCallbackError
        "response_callback provided, but the event does not request a response") ∧
    (send_event emptyClientState noRespEvent true none noRespEvent).1.outgoing =
      [noRespEvent] ∧
    ([noRespEvent] : List Event) ≠ ([] : List Event) := by
  refine ⟨rfl, rfl, by simp⟩

/-- Claim C1 (amended): for every event whose `response_requested` field
evaluates falsy, `send_event` with a callback raises `ResponseCallbackError`,
but only after the event has been appended to the outgoing queue — the queue
is grown by the failed call, not left unchanged. -/
theorem claim_C1 (st : ClientState) (e : Event) (v : Json)
    (arrival : Option Nat) (resp : Event)
    (hv : e.response_requested = .ok v) (hf : pyTruthy v = false) :
    send_event st e true arrival resp =
      ({ st with outgoing := st.outgoing ++ [e] },
       .error (.responseCallbackError
         "response_callback provided, but the event does not request a response")) := by
  simp [send_event, hv, hf]

/-- Claim C1 witness: the amended statement at a concrete event carrying
`response_requested = false`. -/
theorem claim_C1_witness :
    send_event emptyClientState noRespEvent true none sampleEvent =
      ({ emptyClientState with outgoing := [noRespEvent] },
       .error (.responseCallbackError
         "response_callback provided, but the event does not request a response")) :=
  claim_C1 emptyClientState noRespEvent (.bool false) none sampleEvent rfl rfl

/-- Claim C2 counterexample: after a wait on `/r` times out with no
delivery, the correlator table still CONTAINS an entry for `/r` — the
claim's "the table has no entry for R afterwards" is false (`__await_event`
only deletes the entry on the success path). -/
theorem claim_C2_counterexample :
    (await_event [] (.str "/r") none sampleEvent).1 = none ∧
    containsKeyJ (await_event [] (.str "/r") none sampleEvent).2 (.str "/r") = true :=
  ⟨rfl, rfl⟩

/-- Claim C2 (amended): when no event with topic `R` is delivered within the
hard-coded 30-unit budget, the await produces a timeout result (no event is
handed to the callback), but the correlator table afterwards still contains
an entry for `R`: the entry is removed only on successful delivery. -/
theorem claim_C2 (cbs : List (Json × List Event)) (topic : Json)
    (arrival : Option Nat) (resp : Event)
    (h : arrival = none ∨ ∃ a, arrival = some a ∧ 30 < a) :
    (await_event cbs topic arrival resp).1 = none ∧
    containsKeyJ (await_event cbs topic arrival resp).2 topic = true :=
  await_event_timeout_keeps_entry cbs topic arrival resp h

/-- Claim C2 witness: the amended statement at a concrete topic with no
arrival at all. -/
theorem claim_C2_witness :
    (await_event [] (.str "/w") none sampleEvent).1 = none ∧
    containsKeyJ (await_event [] (.str "/w") none sampleEvent).2 (.str "/w") = true :=
  claim_C2 [] (.str "/w") none sampleEvent (Or.inl rfl)

/-- Claim C3 counterexample: with `timeout = 60`, a response arriving at
time 40 — well before the caller's timeout elapses — is NOT returned:
`send_event_and_await_response` raises `AwaitEventResponseTimeout`, because
the internal `__await_event` gives up after its hard-coded 30 units. -/
theorem claim_C3_counterexample :
    40 < 60 ∧
    (send_event_and_await_response emptyClientState respReqEvent 60
        (some 40) sampleEvent).2 = .error .awaitEventResponseTimeout :=
  ⟨by decide, rfl⟩

/-- Claim C3 (amended): for an event validly requesting a response,
`send_event_and_await_response` returns the response exactly when it
arrives within the internal hard-coded 30-unit await budget (even when the
caller's `timeout` is smaller), and otherwise raises
`AwaitEventResponseTimeout` — the `timeout` argument never extends the
response-delivery window. -/
theorem claim_C3 (st : ClientState) (e : Event) (timeout : Nat)
    (arrival : Option Nat) (resp : Event) (v rt : Json)
    (hv : e.response_requested = .ok v) (htv : pyTruthy v = true)
    (hr : e.response_topic = .ok (some rt)) (htr : pyTruthy rt = true) :
    (∀ a, arrival = some a → a ≤ 30 →
       (send_event_and_await_response st e timeout arrival resp).2 = .ok resp) ∧
    ((arrival = none ∨ ∃ a, arrival = some a ∧ 30 < a) →
       (send_event_and_await_response st e timeout arrival resp).2 =
         .error .awaitEventResponseTimeout) := by
  have hse : send_event st e true arrival resp =
      ({ st with outgoing := st.outgoing ++ [e],
                 callbacks := (await_event st.callbacks rt arrival resp).2 },
       .ok (await_event st.callbacks rt arrival resp).1) := by
    rcases hA : await_event st.callbacks rt arrival resp with ⟨d, c⟩
    simp [send_event, hv, htv, hr, htr, hA]
  constructor
  · intro a ha hle
    subst ha
    have hd : (await_event st.callbacks rt (some a) resp).1 = some resp := by
      simp [await_event, hle]
    simp [send_event_and_await_response, hse, hd]
  · intro h
    have hd := (await_event_timeout_keeps_entry st.callbacks rt arrival resp h).1
    simp [send_event_and_await_response, hse, hd]

/-- Claim C3 witness: the amended statement at a concrete response-requesting
event with the response arriving at time 2 (within the 30-unit budget). -/
theorem claim_C3_witness :
    (send_event_and_await_response emptyClientState respReqEvent 5
        (some 2) sampleEvent).2 = .ok sampleEvent :=
  (claim_C3 emptyClientState respReqEvent 5 (some 2) sampleEvent
    (.bool true) (.str "/r") rfl rfl rfl rfl).1 2 rfl (by decide)

/-- Claim C4: for every event taken from the incoming queue, the inbound
dispatcher first discards it when no application handler is registered
(state otherwise untouched, no buffering); else, when the event's topic has
a registered waiter in the correlator table, the event is appended to that
waiter's queue and processing stops; else the event is forwarded to the
handler queue. -/
theorem claim_C4 (st : ClientState) (e : Event) (rest : List Event) (t : Json)
    (hq : st.incoming = e :: rest) :
    (st.receiverRegistered = false →
       process_incoming_step st = ({ st with incoming := rest }, .discarded)) ∧
    (st.receiverRegistered = true → e.topic = .ok t →
       containsKeyJ st.callbacks t = true →
       process_incoming_step st =
         ({ st with incoming := rest, callbacks := pushToKeyJ st.callbacks t e },
          .toWaiter t)) ∧
    (st.receiverRegistered = true → e.topic = .ok t →
       containsKeyJ st.callbacks t = false →
       process_incoming_step st =
         ({ st with incoming := rest, receiverQueue := st.receiverQueue ++ [e] },
          .toHandler)) := by
  refine ⟨?_, ?_, ?_⟩
  · intro h1
    simp [process_incoming_step, hq, h1]
  · intro h1 h2 h3
    simp [process_incoming_step, hq, h1, h2, h3]
  · intro h1 h2 h3
    simp [process_incoming_step, hq, h1, h2, h3]

/-- Claim C4 witness: a registered handler, an empty correlator table and a
concrete event land the event in the handler queue. -/
theorem claim_C4_witness :
    process_incoming_step
      { emptyClientState with incoming := [sampleEvent], receiverRegistered := true } =
      ({ emptyClientState with
          receiverRegistered := true
          receiverQueue := [sampleEvent] }, .toHandler) :=
  (claim_C4
    { emptyClientState with incoming := [sampleEvent], receiverRegistered := true }
    sampleEvent [] (.str "/t") rfl).2.2 rfl rfl rfl

/-- Claim C5: the outbound sender resolves the destination to the event's
own `destination` field for `BrokerEvent`s and to the configured broker
address otherwise; and on transport failure the event is dropped (the queue
simply advances past it, with no retry) and no error is raised towards the
enqueuer — the step returns normally with a logged-drop outcome. -/
theorem claim_C5 (bh : Option String) (bp : Option Nat) (d h : String)
    (p : Nat) (e : Event) (oe : OutEvent) (rest : List OutEvent) (ok : Bool) :
    resolve_destination bh bp (.brokerEvt d e) = .ok d ∧
    resolve_destination (some h) (some p) (.plain e) =
      .ok ("http://" ++ h ++ ":" ++ toString p ++ "/event") ∧
    (process_outgoing_step bh bp (oe :: rest) ok).2 = rest ∧
    (∀ dest, resolve_destination bh bp oe = .ok dest →
       process_outgoing_step bh bp (oe :: rest) false =
         (.droppedAfterFailure dest, rest)) := by
  refine ⟨rfl, rfl, ?_, ?_⟩
  · rcases hr : resolve_destination bh bp oe with err | dest
    · simp [process_outgoing_step, hr]
    · cases ok <;> simp [process_outgoing_step, hr]
  · intro dest hd
    simp [process_outgoing_step, hd]

/-- Claim C5 witness: a plain event headed for a configured broker is
dropped (with its resolved destination) on transport failure, leaving the
rest of the queue untouched. -/
theorem claim_C5_witness :
    process_outgoing_step (some "B") (some 9) [.plain sampleEvent] false =
      (.droppedAfterFailure "http://B:9/event", []) :=
  (claim_C5 (some "B") (some 9) "x" "B" 9 sampleEvent
    (.plain sampleEvent) [] false).2.2.2 "http://B:9/event" rfl

/-- Claim C6: for POSTs to `/event`, an unparseable body yields 400 with the
Invalid JSON message; a body missing the top-level `event` or `payload` key
yields 400 Missing event or payload; an `event` object lacking `topic`
yields 400 Missing topic; a valid body yields 200 with an empty-object body
and the event is appended to the incoming queue; POSTs to any other path
yield 404. -/
theorem claim_C6 :
    (∀ inc, do_POST "/event" none inc =
       (.responded 400 "\x7b\"msg\": \"Invalid JSON\"\x7d", inc)) ∧
    (∀ inc fs, (dictGetPy fs "event" = none ∨ dictGetPy fs "payload" = none) →
       do_POST "/event" (some (.obj fs)) inc =
         (.responded 400 "\x7b\"msg\": \"Missing event or payload\"\x7d", inc)) ∧
    (∀ inc fs efs, dictGetPy fs "event" = some (.obj efs) →
       (∃ pl, dictGetPy fs "payload" = some pl) →
       dictGetPy efs "topic" = none →
       do_POST "/event" (some (.obj fs)) inc =
         (.responded 400 "\x7b\"msg\": \"Missing topic\"\x7d", inc)) ∧
    (∀ inc fs efs tv, dictGetPy fs "event" = some (.obj efs) →
       (∃ pl, dictGetPy fs "payload" = some pl) →
       dictGetPy efs "topic" = some tv →
       do_POST "/event" (some (.obj fs)) inc =
         (.responded 200 "\x7b\x7d", inc ++ [⟨fs⟩])) ∧
    (∀ path parsed inc, path ≠ "/event" →
       do_POST path parsed inc =
         (.responded 404 "\x7b\"msg\": \"Not Found\"\x7d", inc)) := by
  refine ⟨fun inc => rfl, ?_, ?_, ?_, ?_⟩
  · intro inc fs h
    rcases h with he | hp
    · rcases hp2 : dictGetPy fs "payload" with _ | pl <;>
        simp [do_POST, he, hp2]
    · rcases he2 : dictGetPy fs "event" with _ | ev <;>
        simp [do_POST, he2, hp]
  · intro inc fs efs hev hpl htp
    obtain ⟨pl, hpl⟩ := hpl
    simp [do_POST, hev, hpl, htp]
  · intro inc fs efs tv hev hpl htp
    obtain ⟨pl, hpl⟩ := hpl
    simp [do_POST, hev, hpl, htp, mk?_of_valid fs efs tv hev ⟨pl, hpl⟩ htp]
  · intro path parsed inc h
    simp [do_POST, h]

/-- Claim C6 witness: a concrete valid body yields 200 with an empty-object
response and enqueues the event. -/
theorem claim_C6_witness :
    do_POST "/event"
      (some (.obj [("event", .obj [("topic", .str "/x")]), ("payload", .obj [])]))
      [] =
      (.responded 200 "\x7b\x7d",
       [⟨[("event", .obj [("topic", .str "/x")]), ("payload", .obj [])]⟩]) :=
  claim_C6.2.2.2.1 [] [("event", .obj [("topic", .str "/x")]), ("payload", .obj [])]
    [("topic", .str "/x")] (.str "/x") rfl ⟨.obj [], rfl⟩ rfl

/-- Claim C7: for every input dictionary (with a well-shaped header object
when one is present), constructing an `Event` whose topic or payload is
missing fails with the constructor's validation error and never returns a
partially-built object; when both are present, construction succeeds and
the resulting `Event` stores the input unchanged (accessors are pure reads
of it). -/
theorem claim_C7 (data : List (String × Json))
    (hwf : ∀ v, dictLookup data "event" = some v → ∃ fs, v = .obj fs) :
    ((¬ topicPresent data ∨ dictHasKey data "payload" = false) →
       ∃ m, Event.mk? data = .error (.valueError m)) ∧
    (topicPresent data → dictHasKey data "payload" = true →
       Event.mk? data = .ok ⟨data⟩) ∧
    (∀ e, Event.mk? data = .ok e → e.data = data) := by
  rcases hl : dictLookup data "event" with _ | v
  · refine ⟨fun _ => ⟨"Missing required event field in event data", ?_⟩, ?_, ?_⟩
    · simp [Event.mk?, hl]
    · intro htp
      obtain ⟨fs, hfs, _⟩ := htp
      rw [hl] at hfs
      cases hfs
    · intro e he
      simp [Event.mk?, hl] at he
  · obtain ⟨fs, rfl⟩ := hwf v hl
    rcases hpl : dictHasKey data "payload" with _ | _
    · refine ⟨fun _ => ⟨"Missing required payload field in event data", ?_⟩, ?_, ?_⟩
      · simp [Event.mk?, hl, hpl]
      · intro _ hpl2
        cases hpl2
      · intro e he
        simp [Event.mk?, hl, hpl] at he
    · rcases htk : dictHasKey fs "topic" with _ | _
      · refine ⟨?_, ?_, ?_⟩
        · intro _
          exact ⟨"Missing required topic field in event header",
            by simp [Event.mk?, hl, hpl, pyInOp, htk]⟩
        · intro htp _
          obtain ⟨fs2, hfs2, htk2⟩ := htp
          rw [hl] at hfs2
          cases hfs2
          rw [htk] at htk2
          cases htk2
        · intro e he
          simp [Event.mk?, hl, hpl, pyInOp, htk] at he
      · have hok : Event.mk? data = .ok ⟨data⟩ := by
          simp [Event.mk?, hl, hpl, pyInOp, htk]
        refine ⟨?_, fun _ _ => hok, ?_⟩
        · intro hbad
          rcases hbad with hbad | hbad
          · exact absurd ⟨fs, hl, htk⟩ hbad
          · cases hbad
        · intro e he
          rw [hok] at he
          cases he
          rfl

/-- Claim C7 witness: a dictionary with both topic and payload constructs
the event that stores exactly that dictionary. -/
theorem claim_C7_witness :
    Event.mk? [("event", .obj [("topic", .str "/t")]), ("payload", .obj [])] =
      .ok ⟨[("event", .obj [("topic", .str "/t")]), ("payload", .obj [])]⟩ :=
  (claim_C7 [("event", .obj [("topic", .str "/t")]), ("payload", .obj [])]
    (fun v hv => ⟨[("topic", .str "/t")], by cases hv; rfl⟩)).2.1
    ⟨[("topic", .str "/t")], rfl, rfl⟩ rfl

/-- Claim C8 counterexample: the subscribe call emits an event whose topic
is `/zkms/register/topic`, not the `/broker/register/topic` the claim
states. -/
theorem claim_C8_counterexample :
    (subscribe_topics emptyClientState "h" 1 ["/a"]).1.outgoing.map Event.topic =
      [.ok (.str "/zkms/register/topic")] ∧
    "/zkms/register/topic" ≠ "/broker/register/topic" :=
  ⟨rfl, by decide⟩

/-- Claim C8 (amended): the control topics carry the `/zkms/` prefix: the
registration event sent by `connect_broker` has topic
`/zkms/register/module` with the module's name, description, version, type,
callback address and topics `["*"]` in the payload; every subscribe call
emits exactly one event with topic `/zkms/register/topic` and every
unsubscribe call one with `/zkms/deregister/topic`, each carrying the
callback address and the given topic list. -/
theorem claim_C8 (st : ClientState) (host : String) (port : Nat)
    (topics : List String) (name descr ver : String) (mt : ModuleType)
    (uuidStr bHost : String) (bPort : Nat) :
    (∃ e, Event.mk? (topic_subscription_event_data host port topics) = .ok e ∧
       (subscribe_topics st host port topics).1.outgoing = st.outgoing ++ [e] ∧
       e.topic = .ok (.str "/zkms/register/topic") ∧
       e.payload = .ok (.obj
         [("eventHandler",
           .str ("http://" ++ host ++ ":" ++ toString port ++ "/event")),
          ("topics", .arr (topics.map .str))])) ∧
    (∃ e, Event.mk? (topic_unsubscription_event_data host port topics) = .ok e ∧
       (unsubscribe_topics st host port topics).1.outgoing = st.outgoing ++ [e] ∧
       e.topic = .ok (.str "/zkms/deregister/topic") ∧
       e.payload = .ok (.obj
         [("eventHandler",
           .str ("http://" ++ host ++ ":" ++ toString port ++ "/event")),
          ("topics", .arr (topics.map .str))])) ∧
    (∃ e st2,
       connect_broker st name descr ver mt host port uuidStr bHost bPort = .ok st2 ∧
       st2.outgoing = st.outgoing ++ [e] ∧
       e.topic = .ok (.str "/zkms/register/module") ∧
       e.payload = .ok (.obj [("registration",
         .obj [("name", .str name),
               ("description", .str descr),
               ("version", .str ver),
               ("type", .str (moduleTypeStr mt)),
               ("eventHandler",
                .str ("http://" ++ host ++ ":" ++ toString port ++ "/event")),
               ("topics", .arr [.str "*"])])])) := by
  refine ⟨⟨⟨topic_subscription_event_data host port topics⟩, rfl, rfl, rfl, rfl⟩,
    ⟨⟨topic_unsubscription_event_data host port topics⟩, rfl, rfl, rfl, rfl⟩,
    ⟨⟨registration_event_data name descr ver mt host port uuidStr⟩,
      { st with brokerHost := some bHost, brokerPort := some bPort,
                outgoing := st.outgoing ++
                  [⟨registration_event_data name descr ver mt host port uuidStr⟩] },
      rfl, rfl, rfl, rfl⟩⟩

/-- Claim C9: the code contradicts the spec (and its own docstring): for an
event whose header omits `response_requested`, the accessor does not return
a default of `false` — it raises `KeyError`, because it subscripts the
header directly instead of using `.get`. -/
theorem claim_C9 :
    Event.response_requested
      ⟨[("event", .obj [("topic", .str "/x")]), ("payload", .obj [])]⟩ =
      .error (.keyError "response_requested") := rfl

/-- Claim C10: `Module.remove_topic` on a non-member topic raises `KeyError`
and leaves the topic set unchanged, while `Module.remove_topics` never
raises and removes exactly those members of the given list that are in the
set, ignoring the rest. -/
theorem claim_C10 (m : Module) (t : String) (ts : List String) :
    (t ∉ m.topics → m.remove_topic t = (.error (.keyError t), m)) ∧
    (∀ x, x ∈ (m.remove_topics ts).topics ↔ (x ∈ m.topics ∧ x ∉ ts)) := by
  constructor
  · intro h
    simp [Module.remove_topic, h]
  · intro x
    simp [Module.remove_topics, Finset.mem_sdiff, List.mem_toFinset]

/-- Claim C10 witness: removing an absent topic from a concrete module
raises `KeyError` and leaves the module intact, while `remove_topics`
drops exactly the listed members. -/
theorem claim_C10_witness :
    (Module.remove_topic ⟨"n", "d", "v", .CORE, "h", {"/a"}⟩ "/b" =
       (.error (.keyError "/b"), ⟨"n", "d", "v", .CORE, "h", {"/a"}⟩)) ∧
    ("/a" ∈ (Module.remove_topics ⟨"n", "d", "v", .CORE, "h", {"/a"}⟩ ["/a"]).topics ↔
       ("/a" ∈ ({"/a"} : Finset String) ∧ "/a" ∉ (["/a"] : List String))) :=
  ⟨(claim_C10 ⟨"n", "d", "v", .CORE, "h", {"/a"}⟩ "/b" ["/a"]).1 (by decide),
   (claim_C10 ⟨"n", "d", "v", .CORE, "h", {"/a"}⟩ "/b" ["/a"]).2 "/a"⟩

end EventConnector
